import Mathlib

/-!
Shallow embedding of the Go-Mongo-Helper repository wrapper
(src/mongodb/repository.go, src/datastore/data-store.go,
src/unnamed/part_003 filter builder).

Machine integers and times are modelled as `Nat`; `primitive.ObjectID` is a
`Nat` with `0` playing the role of `primitive.NilObjectID`. The two effectful
primitives the repository uses, `time.Now()` and `primitive.NewObjectID()`,
are modelled by explicit streams in an environment `Env` consumed through an
explicit position state `EffState`. The underlying `*mongo.Collection` is an
oracle `Store` of response functions; every repository operation additionally
returns the list of store calls it made, so that "the store is not reached"
and "delegates to the store" are provable statements.
-/

namespace GoMongoHelper

/-- Modelled `bson` value: the values that appear in the filters and update
documents built by this repository (object ids, booleans, nested documents). -/
inductive BsonVal : Type where
  | oid : Nat → BsonVal
  | boolean : Bool → BsonVal
  | str : String → BsonVal
  | doc : List (String × BsonVal) → BsonVal

/-- Modelled `bson.M` / `primitive.M`: a Go map from field name to value,
represented as a key-unordered association list; `bsonSet` below gives it the
Go map write semantics. -/
abbrev BsonM : Type := List (String × BsonVal)

/-- Go map write `m[k] = v`: replaces the value when the key is present,
appends the binding otherwise. -/
def bsonSet (m : BsonM) (k : String) (v : BsonVal) : BsonM :=
  if m.any (fun p => p.1 = k) then
    m.map (fun p => if p.1 = k then (k, v) else p)
  else
    m ++ [(k, v)]

/-- Embedding of `mongodb.BaseModel` (src/datastore/data-store.go):
MongoID (`0` is the zero value `primitive.NilObjectID`), CreatedAt, UpdatedAt. -/
structure BaseModel where
  mongoID : Nat
  createdAt : Nat
  updatedAt : Nat
deriving DecidableEq

/-- Document handed to the repository: a `BaseModel` plus the caller's own
payload fields (like `Name`/`Email` of the `User` test type), which the
lifecycle methods never touch. -/
structure Doc (α : Type) where
  base : BaseModel
  payload : α
deriving DecidableEq

/-- Environment of external effect sources: `clock n` is the value of the
n-th `time.Now()` call, `oidGen n` the value of the n-th
`primitive.NewObjectID()` call. -/
structure Env where
  clock : Nat → Nat
  oidGen : Nat → Nat

/-- Consumption positions into the two effect streams of `Env`. -/
structure EffState where
  tick : Nat
  oidPos : Nat
deriving DecidableEq

/-- Model of one `time.Now()` call. -/
def timeNow (env : Env) (s : EffState) : Nat × EffState :=
  (env.clock s.tick, { s with tick := s.tick + 1 })

/-- Model of one `primitive.NewObjectID()` call. -/
def newObjectID (env : Env) (s : EffState) : Nat × EffState :=
  (env.oidGen s.oidPos, { s with oidPos := s.oidPos + 1 })

/-- Embedding of `BaseModel.InitMongoID` (src/datastore/data-store.go:91-95):
creates a new MongoID if the existing one is the zero value. -/
def BaseModel.initMongoID (env : Env) (s : EffState) (b : BaseModel) :
    BaseModel × EffState :=
  if b.mongoID = 0 then
    let (i, s1) := newObjectID env s
    ({ b with mongoID := i }, s1)
  else
    (b, s)

/-- Embedding of `BaseModel.SetCreatedAt`. -/
def BaseModel.setCreatedAt (b : BaseModel) (t : Nat) : BaseModel :=
  { b with createdAt := t }

/-- Embedding of `BaseModel.SetUpdatedAt`. -/
def BaseModel.setUpdatedAt (b : BaseModel) (t : Nat) : BaseModel :=
  { b with updatedAt := t }

/-- Embedding of `BaseModel.ResetMongoID`: sets the MongoID to the zero value. -/
def BaseModel.resetMongoID (b : BaseModel) : BaseModel :=
  { b with mongoID := 0 }

/-- Lifts `InitMongoID` to a document embedding a `BaseModel`. -/
def Doc.initMongoID (env : Env) (s : EffState) (d : Doc α) : Doc α × EffState :=
  let (b, s1) := d.base.initMongoID env s
  ({ d with base := b }, s1)

/-- Lifts `SetCreatedAt` to a document. -/
def Doc.setCreatedAt (d : Doc α) (t : Nat) : Doc α :=
  { d with base := d.base.setCreatedAt t }

/-- Lifts `SetUpdatedAt` to a document. -/
def Doc.setUpdatedAt (d : Doc α) (t : Nat) : Doc α :=
  { d with base := d.base.setUpdatedAt t }

/-- Go errors surfaced by the wrapper: opaque driver errors, the
`fmt.Errorf` validation errors of the empty-filter guards (carrying the
offending filter that the message formats with `%v`), and the
`fmt.Errorf("%v: %w", op, err)` operation-name wrapping. -/
inductive GoErr : Type where
  | storeErr : String → GoErr
  | validationErr : String → BsonM → GoErr
  | opWrapped : String → GoErr → GoErr

/-- Embedding of `mongo.UpdateResult`. -/
structure UpdateResult where
  matchedCount : Nat
  modifiedCount : Nat
  upsertedCount : Nat
deriving DecidableEq

/-- Embedding of `mongo.BulkWriteResult`. -/
structure BulkWriteResult where
  insertedCount : Nat
  matchedCount : Nat
  modifiedCount : Nat
  deletedCount : Nat
  upsertedCount : Nat
deriving DecidableEq

/-- The Go zero value of `mongo.BulkWriteResult` returned by the
empty-batch short-circuit of `BulkWrite`. -/
def emptyBulkWriteResult : BulkWriteResult :=
  ⟨0, 0, 0, 0, 0⟩

/-- Abstract bulk write-intent descriptor (`mongo.WriteModel`); its contents
are opaque to the wrapper, which only inspects the length of the batch. -/
structure WriteModel where
  tag : Nat
deriving DecidableEq

/-- Oracle for the wrapped `*mongo.Collection`: the response of the
underlying driver to each call the repository can make. -/
structure Store (α : Type) where
  insertOne : Doc α → Except GoErr Unit
  insertMany : List (Doc α) → Except GoErr Unit
  updateOne : BsonM → BsonM → Except GoErr UpdateResult
  updateMany : BsonM → BsonM → Except GoErr UpdateResult
  replaceOne : BsonM → Doc α → Except GoErr Unit
  deleteOne : BsonM → Except GoErr Unit
  deleteMany : BsonM → Except GoErr Nat
  bulkWrite : List WriteModel → Except GoErr BulkWriteResult

/-- Record of one call made by the repository to the underlying store. -/
inductive StoreCall (α : Type) where
  | insertOne : Doc α → StoreCall α
  | insertMany : List (Doc α) → StoreCall α
  | updateOne : BsonM → BsonM → StoreCall α
  | updateMany : BsonM → BsonM → StoreCall α
  | replaceOne : BsonM → Doc α → StoreCall α
  | deleteOne : BsonM → StoreCall α
  | deleteMany : BsonM → StoreCall α
  | bulkWrite : List WriteModel → StoreCall α

/-- Embedding of `mongodb.Repository`: holds the wrapped collection. -/
structure Repository (α : Type) where
  db : Store α

/-- The three lifecycle-stamping lines shared by `InsertOne` and the
`InsertMany` loop body: `doc.InitMongoID(); doc.SetCreatedAt(time.Now());
doc.SetUpdatedAt(time.Now())`. -/
def stampDoc (env : Env) (s : EffState) (d : Doc α) : Doc α × EffState :=
  let (d1, s1) := d.initMongoID env s
  let (t1, s2) := timeNow env s1
  let d2 := d1.setCreatedAt t1
  let (t2, s3) := timeNow env s2
  (d2.setUpdatedAt t2, s3)

/-- The `for i, doc := range documents` stamping loop of `InsertMany`. -/
def stampAll (env : Env) : EffState → List (Doc α) → List (Doc α) × EffState
  | s, [] => ([], s)
  | s, d :: ds =>
    let (d1, s1) := stampDoc env s d
    let (rest, s2) := stampAll env s1 ds
    (d1 :: rest, s2)

/-- Embedding of `Repository.InsertOne` (src/mongodb/repository.go:171-182):
stamps the document, delegates to the store, and returns the stamped document
together with the store error (or with no error on success). -/
def Repository.InsertOne (r : Repository α) (env : Env) (s : EffState)
    (doc : Doc α) : (Doc α × Option GoErr) × EffState × List (StoreCall α) :=
  let (d, s1) := stampDoc env s doc
  match r.db.insertOne d with
  | .ok _ => ((d, none), s1, [.insertOne d])
  | .error e => ((d, some e), s1, [.insertOne d])

/-- Embedding of `Repository.InsertMany` (src/mongodb/repository.go:188-212):
short-circuits the empty batch, otherwise stamps every document and delegates. -/
def Repository.InsertMany (r : Repository α) (env : Env) (s : EffState)
    (documents : List (Doc α)) :
    Except GoErr (List (Doc α)) × EffState × List (StoreCall α) :=
  if documents.length ≤ 0 then
    (.ok [], s, [])
  else
    let (docs, s1) := stampAll env s documents
    match r.db.insertMany docs with
    | .ok _ => (.ok docs, s1, [.insertMany docs])
    | .error e => (.error e, s1, [.insertMany docs])

/-- Embedding of `Repository.UpdateOne` (src/mongodb/repository.go:218-225):
delegates with the `$set`/`$currentDate` wrapping and wraps any store error
with the operation name. -/
def Repository.UpdateOne (r : Repository α) (filter data : BsonM) :
    Except GoErr UpdateResult × List (StoreCall α) :=
  let u : BsonM :=
    [("$set", .doc data), ("$currentDate", .doc [("updatedAt", .boolean true)])]
  match r.db.updateOne filter u with
  | .ok res => (.ok res, [.updateOne filter u])
  | .error e =>
    (.error (.opWrapped "mongodb.Repository.UpdateOne" e), [.updateOne filter u])

/-- Embedding of `Repository.UpdateMany` (src/mongodb/repository.go:230-233):
delegates with the `$set`/`$currentDate` wrapping and returns the store error
unchanged. -/
def Repository.UpdateMany (r : Repository α) (filter data : BsonM) :
    Option GoErr × List (StoreCall α) :=
  let u : BsonM :=
    [("$set", .doc data), ("$currentDate", .doc [("updatedAt", .boolean true)])]
  match r.db.updateMany filter u with
  | .ok _ => (none, [.updateMany filter u])
  | .error e => (some e, [.updateMany filter u])

/-- Embedding of `Repository.ReplaceOne` (src/mongodb/repository.go:238-242):
sets UpdatedAt on the replacement, delegates, and returns the replacement
with the store error, if any. -/
def Repository.ReplaceOne (r : Repository α) (env : Env) (s : EffState)
    (filter : BsonM) (doc : Doc α) :
    (Doc α × Option GoErr) × EffState × List (StoreCall α) :=
  let (t, s1) := timeNow env s
  let d := doc.setUpdatedAt t
  match r.db.replaceOne filter d with
  | .ok _ => ((d, none), s1, [.replaceOne filter d])
  | .error e => ((d, some e), s1, [.replaceOne filter d])

/-- Embedding of `Repository.DeleteOne` (src/mongodb/repository.go:247-253):
rejects an empty filter before any store call, otherwise delegates. -/
def Repository.DeleteOne (r : Repository α) (filter : BsonM) :
    Except GoErr Unit × List (StoreCall α) :=
  if filter.length = 0 then
    (.error (.validationErr "DeleteOne: Filter can not be empty. Filter: %v" filter), [])
  else
    match r.db.deleteOne filter with
    | .ok _ => (.ok (), [.deleteOne filter])
    | .error e => (.error e, [.deleteOne filter])

/-- Embedding of `Repository.DeleteMany` (src/mongodb/repository.go:258-267):
rejects an empty filter before any store call, otherwise delegates and
returns the deleted count. -/
def Repository.DeleteMany (r : Repository α) (filter : BsonM) :
    Except GoErr Nat × List (StoreCall α) :=
  if filter.length = 0 then
    (.error (.validationErr "DeleteMany: Filter can not be empty. Filter: %v" filter), [])
  else
    match r.db.deleteMany filter with
    | .ok n => (.ok n, [.deleteMany filter])
    | .error e => (.error e, [.deleteMany filter])

/-- Embedding of `Repository.BulkWrite` (src/mongodb/repository.go:274-281):
returns an empty result and no error for a zero-length batch, otherwise
delegates. -/
def Repository.BulkWrite (r : Repository α) (documents : List WriteModel) :
    Except GoErr BulkWriteResult × List (StoreCall α) :=
  if documents.length = 0 then
    (.ok emptyBulkWriteResult, [])
  else
    match r.db.bulkWrite documents with
    | .ok res => (.ok res, [.bulkWrite documents])
    | .error e => (.error e, [.bulkWrite documents])

/-- Embedding of a `mongodb.FilterOption`: its `Apply` method, mutating the
accumulator map. -/
def FilterOption : Type := BsonM → BsonM

/-- Embedding of `withMongoID.Apply` (src/unnamed/part_003:37-39):
`m["_id"] = primitive.ObjectID(w)`. -/
def WithMongoID (id : Nat) : FilterOption :=
  fun m => bsonSet m "_id" (.oid id)

/-- Embedding of `NewFilter` (src/unnamed/part_003:25-33): starts from the
empty map and applies each option in sequence. -/
def NewFilter (opts : List FilterOption) : BsonM :=
  opts.foldl (fun f opt => opt f) []

/-- Embedding of `MongoIDFilter`. -/
def MongoIDFilter (id : Nat) : BsonM :=
  NewFilter [WithMongoID id]

/-- The update document `bson.M` literal that `UpdateOne` and `UpdateMany`
both build around the caller's partial-field mapping: `data` under `$set`,
plus `$currentDate` forcing `updatedAt` to the store-side current time. -/
def setCurrentDateWrap (data : BsonM) : BsonM :=
  [("$set", .doc data), ("$currentDate", .doc [("updatedAt", .boolean true)])]

/-- Recognizer for the operation-name wrapping `fmt.Errorf("%v: %w", op, err)`. -/
def GoErr.isOpWrapped : GoErr → Bool
  | .opWrapped _ _ => true
  | _ => false

/-! Concrete fixtures used by witnesses and counterexamples. -/

/-- Store whose every call succeeds. -/
def stOk : Store Unit where
  insertOne := fun _ => .ok ()
  insertMany := fun _ => .ok ()
  updateOne := fun _ _ => .ok ⟨1, 1, 0⟩
  updateMany := fun _ _ => .ok ⟨1, 1, 0⟩
  replaceOne := fun _ _ => .ok ()
  deleteOne := fun _ => .ok ()
  deleteMany := fun _ => .ok 1
  bulkWrite := fun _ => .ok ⟨0, 0, 0, 0, 0⟩

/-- Store whose every call fails with an opaque driver error. -/
def stErr : Store Unit where
  insertOne := fun _ => .error (.storeErr "boom")
  insertMany := fun _ => .error (.storeErr "boom")
  updateOne := fun _ _ => .error (.storeErr "boom")
  updateMany := fun _ _ => .error (.storeErr "boom")
  replaceOne := fun _ _ => .error (.storeErr "boom")
  deleteOne := fun _ => .error (.storeErr "boom")
  deleteMany := fun _ => .error (.storeErr "boom")
  bulkWrite := fun _ => .error (.storeErr "boom")

/-- Repository over the all-succeeding store. -/
def repoOk : Repository Unit := ⟨stOk⟩

/-- Repository over the all-failing store. -/
def repoErr : Repository Unit := ⟨stErr⟩

/-- Concrete environment: the n-th clock reading is n+1, the n-th generated
object id is n+1. -/
def envW : Env := ⟨fun n => n + 1, fun n => n + 1⟩

/-- Initial effect-stream positions. -/
def effs0 : EffState := ⟨0, 0⟩

/-- Concrete non-empty filter. -/
def fW : BsonM := [("_id", .oid 7)]

/-- Concrete partial-field update mapping. -/
def dataW : BsonM := [("name", .str "Willy2")]

/-- Concrete document with zero identifier and unset timestamps. -/
def dZero : Doc Unit := ⟨⟨0, 0, 0⟩, ()⟩

/-- Result of `repoOk.InsertMany envW effs0 [dZero]`. -/
def outW : List (Doc Unit) := [⟨⟨1, 1, 2⟩, ()⟩]

/-! Characterizations of the lifecycle stamping. -/

/-- Full evaluation of `stampDoc` on a zero-identifier document: a fresh id
is drawn and both timestamps take the next two clock readings. -/
theorem stampDoc_zero {α : Type} (env : Env) (s : EffState) (d : Doc α)
    (h : d.base.mongoID = 0) :
    stampDoc env s d =
      (⟨⟨env.oidGen s.oidPos, env.clock s.tick, env.clock (s.tick + 1)⟩, d.payload⟩,
       ⟨s.tick + 2, s.oidPos + 1⟩) := by
  simp [stampDoc, Doc.initMongoID, BaseModel.initMongoID, timeNow, newObjectID, h,
    Doc.setCreatedAt, Doc.setUpdatedAt, BaseModel.setCreatedAt, BaseModel.setUpdatedAt]

/-- Full evaluation of `stampDoc` on a non-zero-identifier document: the id
is kept and both timestamps take the next two clock readings. -/
theorem stampDoc_nonzero {α : Type} (env : Env) (s : EffState) (d : Doc α)
    (h : ¬ d.base.mongoID = 0) :
    stampDoc env s d =
      (⟨⟨d.base.mongoID, env.clock s.tick, env.clock (s.tick + 1)⟩, d.payload⟩,
       ⟨s.tick + 2, s.oidPos⟩) := by
  simp [stampDoc, Doc.initMongoID, BaseModel.initMongoID, timeNow, newObjectID, h,
    Doc.setCreatedAt, Doc.setUpdatedAt, BaseModel.setCreatedAt, BaseModel.setUpdatedAt]

/-- Stamping never changes the caller's payload fields. -/
theorem stampDoc_payload {α : Type} (env : Env) (s : EffState) (d : Doc α) :
    (stampDoc env s d).1.payload = d.payload := by
  by_cases h : d.base.mongoID = 0
  · rw [stampDoc_zero env s d h]
  · rw [stampDoc_nonzero env s d h]

/-- The identifier after stamping: freshly generated when it was zero,
otherwise unchanged. -/
theorem stampDoc_mongoID {α : Type} (env : Env) (s : EffState) (d : Doc α) :
    (stampDoc env s d).1.base.mongoID =
      if d.base.mongoID = 0 then env.oidGen s.oidPos else d.base.mongoID := by
  by_cases h : d.base.mongoID = 0
  · rw [stampDoc_zero env s d h]; simp [h]
  · rw [stampDoc_nonzero env s d h]; simp [h]

/-- Timestamps after stamping are the next two clock readings. -/
theorem stampDoc_timestamps {α : Type} (env : Env) (s : EffState) (d : Doc α) :
    (stampDoc env s d).1.base.createdAt = env.clock s.tick ∧
    (stampDoc env s d).1.base.updatedAt = env.clock (s.tick + 1) := by
  by_cases h : d.base.mongoID = 0
  · rw [stampDoc_zero env s d h]; exact ⟨rfl, rfl⟩
  · rw [stampDoc_nonzero env s d h]; exact ⟨rfl, rfl⟩

/-- The stamping loop preserves the batch length. -/
theorem stampAll_length {α : Type} (env : Env) :
    ∀ (ds : List (Doc α)) (s : EffState), (stampAll env s ds).1.length = ds.length := by
  intro ds
  induction ds with
  | nil => intro s; rfl
  | cons d ds ih =>
    intro s
    simp only [stampAll, List.length_cons]
    rw [ih]

/-- The stamping loop preserves each document's payload at its position. -/
theorem stampAll_get_payload {α : Type} (env : Env) :
    ∀ (ds : List (Doc α)) (s : EffState) (i : Nat)
      (hi : i < (stampAll env s ds).1.length) (hj : i < ds.length),
      ((stampAll env s ds).1.get ⟨i, hi⟩).payload = (ds.get ⟨i, hj⟩).payload := by
  intro ds
  induction ds with
  | nil => intro s i hi hj; exact absurd hj (by simp)
  | cons d ds ih =>
    intro s i hi hj
    match i with
    | 0 => simpa [stampAll] using stampDoc_payload env s d
    | i + 1 =>
      have hi' : i < (stampAll env ((stampDoc env s d).2) ds).1.length := by
        have := hi
        simp only [stampAll, List.length_cons] at this
        omega
      simpa [stampAll] using ih ((stampDoc env s d).2) i hi' (by simpa using hj)

/-- Every document produced by the stamping loop has a non-zero identifier,
provided the id generator never yields the zero id. -/
theorem stampAll_mem_id {α : Type} (env : Env) (hgen : ∀ n, env.oidGen n ≠ 0) :
    ∀ (ds : List (Doc α)) (s : EffState) (d : Doc α), d ∈ (stampAll env s ds).1 →
      d.base.mongoID ≠ 0 := by
  intro ds
  induction ds with
  | nil => intro s d hd; exact absurd hd (by simp [stampAll])
  | cons d0 ds ih =>
    intro s d hd
    simp only [stampAll, List.mem_cons] at hd
    rcases hd with hd | hd
    · subst hd
      rw [stampDoc_mongoID]
      by_cases h : d0.base.mongoID = 0
      · simpa [h] using hgen s.oidPos
      · simp [h]
    · exact ih ((stampDoc env s d0).2) d hd

/-- Every document produced by the stamping loop has non-zero timestamps,
provided the clock never reads the zero time. -/
theorem stampAll_mem_times {α : Type} (env : Env) (hclk : ∀ n, env.clock n ≠ 0) :
    ∀ (ds : List (Doc α)) (s : EffState) (d : Doc α), d ∈ (stampAll env s ds).1 →
      d.base.createdAt ≠ 0 ∧ d.base.updatedAt ≠ 0 := by
  intro ds
  induction ds with
  | nil => intro s d hd; exact absurd hd (by simp [stampAll])
  | cons d0 ds ih =>
    intro s d hd
    simp only [stampAll, List.mem_cons] at hd
    rcases hd with hd | hd
    · subst hd
      constructor
      · rw [(stampDoc_timestamps env s d0).1]; exact hclk s.tick
      · rw [(stampDoc_timestamps env s d0).2]; exact hclk (s.tick + 1)
    · exact ih ((stampDoc env s d0).2) d hd

/-- Evaluation of `InsertOne` in terms of the stamped document and the store
response. -/
theorem insertOne_eq {α : Type} (r : Repository α) (env : Env) (s : EffState)
    (d : Doc α) :
    r.InsertOne env s d =
      (match r.db.insertOne (stampDoc env s d).1 with
       | .ok _ =>
         (((stampDoc env s d).1, none), (stampDoc env s d).2,
          [.insertOne (stampDoc env s d).1])
       | .error e =>
         (((stampDoc env s d).1, some e), (stampDoc env s d).2,
          [.insertOne (stampDoc env s d).1])) :=
  rfl

/-- The document returned by `InsertOne` is always the stamped document,
whether or not the store call succeeds. -/
theorem insertOne_result_doc {α : Type} (r : Repository α) (env : Env)
    (s : EffState) (d : Doc α) :
    (r.InsertOne env s d).1.1 = (stampDoc env s d).1 := by
  rw [insertOne_eq]
  split <;> rfl

/-- The document returned by `ReplaceOne` is the input with only UpdatedAt
refreshed to the next clock reading. -/
theorem replaceOne_result_doc {α : Type} (r : Repository α) (env : Env)
    (s : EffState) (f : BsonM) (d : Doc α) :
    (r.ReplaceOne env s f d).1.1 = d.setUpdatedAt (env.clock s.tick) := by
  unfold Repository.ReplaceOne
  dsimp only [timeNow]
  split <;> rfl

/-- A successful `InsertMany` on a non-empty batch returns exactly the
stamped batch. -/
theorem insertMany_ok_out {α : Type} (r : Repository α) (env : Env) (s : EffState)
    (ds out : List (Doc α)) (hne : ds ≠ [])
    (hok : (r.InsertMany env s ds).1 = .ok out) :
    out = (stampAll env s ds).1 := by
  unfold Repository.InsertMany at hok
  have hlen : ¬ ds.length ≤ 0 := by
    simp [Nat.le_zero, List.length_eq_zero, hne]
  rw [if_neg hlen] at hok
  dsimp only at hok
  rcases h2 : r.db.insertMany (stampAll env s ds).1 with e | u
  · rw [h2] at hok
    exact absurd hok (by simp)
  · rw [h2] at hok
    simp only [Except.ok.injEq] at hok
    exact hok.symm

/-- C1: DeleteOne and DeleteMany reject an empty filter with a ValidationError
before any store call is made (the store-call trace is empty), and on every
non-empty filter they delegate to the store's delete operation, whose outcome
they return. -/
theorem delete_empty_filter_guard {α : Type} (r : Repository α) (filter : BsonM) :
    (filter = [] →
      r.DeleteOne filter =
        (.error (.validationErr "DeleteOne: Filter can not be empty. Filter: %v" filter), []) ∧
      r.DeleteMany filter =
        (.error (.validationErr "DeleteMany: Filter can not be empty. Filter: %v" filter), [])) ∧
    (filter ≠ [] →
      (r.DeleteOne filter).2 = [.deleteOne filter] ∧
      (r.DeleteOne filter).1 = r.db.deleteOne filter ∧
      (r.DeleteMany filter).2 = [.deleteMany filter] ∧
      (r.DeleteMany filter).1 = r.db.deleteMany filter) := by
  constructor
  · intro h
    subst h
    exact ⟨rfl, rfl⟩
  · intro h
    have hlen : ¬ filter.length = 0 := by
      simpa [List.length_eq_zero] using h
    unfold Repository.DeleteOne Repository.DeleteMany
    rw [if_neg hlen, if_neg hlen]
    rcases h1 : r.db.deleteOne filter with e | ⟨⟩ <;>
      rcases h2 : r.db.deleteMany filter with e2 | n <;>
        simp [h1, h2]

/-- C1 witness: the guard evaluated on the empty filter and the delegation
evaluated on a concrete non-empty filter. -/
theorem delete_empty_filter_guard_witness :
    (repoOk.DeleteOne [] =
      (.error (.validationErr "DeleteOne: Filter can not be empty. Filter: %v" []), []) ∧
     repoOk.DeleteMany [] =
      (.error (.validationErr "DeleteMany: Filter can not be empty. Filter: %v" []), [])) ∧
    ((repoOk.DeleteOne fW).2 = [.deleteOne fW] ∧
     (repoOk.DeleteOne fW).1 = repoOk.db.deleteOne fW ∧
     (repoOk.DeleteMany fW).2 = [.deleteMany fW] ∧
     (repoOk.DeleteMany fW).1 = repoOk.db.deleteMany fW) :=
  ⟨(delete_empty_filter_guard repoOk []).1 rfl,
   (delete_empty_filter_guard repoOk fW).2 (by simp [fW])⟩

/-- C6: InsertMany applied to the empty batch and BulkWrite applied to the
empty batch each return an empty result and no error, and make no store call. -/
theorem insertMany_bulkWrite_empty_noop {α : Type} (r : Repository α) (env : Env)
    (s : EffState) :
    r.InsertMany env s [] = (.ok [], s, []) ∧
    r.BulkWrite [] = (.ok emptyBulkWriteResult, []) :=
  ⟨rfl, rfl⟩

/-- C7: UpdateOne and UpdateMany pass to the store exactly the update document
that wraps the caller's partial-field mapping under `$set` and forces
`updatedAt` to the store-side current time under `$currentDate`, and both
operations use the same wrapping. -/
theorem update_wrapping {α : Type} (r : Repository α) (filter data : BsonM) :
    (r.UpdateOne filter data).2 = [.updateOne filter (setCurrentDateWrap data)] ∧
    (r.UpdateMany filter data).2 = [.updateMany filter (setCurrentDateWrap data)] := by
  constructor
  · unfold Repository.UpdateOne
    dsimp only
    split <;> rfl
  · unfold Repository.UpdateMany
    dsimp only
    split <;> rfl

/-- C8: NewFilter starts from the empty mapping and applies each option in
sequence, returning the accumulated mapping; with zero options it returns the
empty (match-all) mapping, and of two options targeting the same key the last
one applied wins. -/
theorem newFilter_accumulates :
    NewFilter [] = ([] : BsonM) ∧
    (∀ (opts : List FilterOption) (o : FilterOption),
      NewFilter (opts ++ [o]) = o (NewFilter opts)) ∧
    (∀ a b : Nat,
      NewFilter [WithMongoID a, WithMongoID b] = NewFilter [WithMongoID b]) := by
  refine ⟨rfl, ?_, ?_⟩
  · intro opts o
    simp [NewFilter, List.foldl_append]
  · intro a b
    simp [NewFilter, WithMongoID, bsonSet]

/-- C9: InitMongoID assigns a freshly generated identifier iff the current one
is the zero value (a document with a non-zero identifier, and the generator
position, are left completely unchanged), and it is idempotent on the document
whenever the generator never yields the zero id. -/
theorem initMongoID_iff_and_idempotent (env : Env) (s : EffState) (b : BaseModel)
    (hgen : ∀ n, env.oidGen n ≠ 0) :
    (b.mongoID = 0 →
      (b.initMongoID env s).1 = { b with mongoID := env.oidGen s.oidPos }) ∧
    (b.mongoID ≠ 0 → b.initMongoID env s = (b, s)) ∧
    (∀ s' : EffState,
      ((b.initMongoID env s).1.initMongoID env s').1 = (b.initMongoID env s).1) := by
  refine ⟨?_, ?_, ?_⟩
  · intro h
    simp [BaseModel.initMongoID, newObjectID, h]
  · intro h
    simp [BaseModel.initMongoID, h]
  · intro s'
    by_cases h : b.mongoID = 0
    · have h1 : (b.initMongoID env s).1 = { b with mongoID := env.oidGen s.oidPos } := by
        simp [BaseModel.initMongoID, newObjectID, h]
      rw [h1]
      simp [BaseModel.initMongoID, hgen s.oidPos]
    · simp [BaseModel.initMongoID, h]

/-- C9 witness: idempotence evaluated on the zero-identifier base model with a
concrete generator. -/
theorem initMongoID_iff_and_idempotent_witness :
    (((⟨0, 0, 0⟩ : BaseModel).initMongoID envW effs0).1.initMongoID envW effs0).1 =
      ((⟨0, 0, 0⟩ : BaseModel).initMongoID envW effs0).1 :=
  (initMongoID_iff_and_idempotent envW effs0 ⟨0, 0, 0⟩ (fun n => Nat.succ_ne_zero n)).2.2 effs0

/-- C2 counterexample: ReplaceOne on a zero-identifier document with an unset
CreatedAt succeeds, yet the returned document still carries the zero
identifier and the zero CreatedAt, so the claimed invariant fails for
ReplaceOne. -/
theorem replaceOne_zero_id_counterexample :
    (repoOk.ReplaceOne envW effs0 fW dZero).1.2 = none ∧
    (repoOk.ReplaceOne envW effs0 fW dZero).1.1.base.mongoID = 0 ∧
    (repoOk.ReplaceOne envW effs0 fW dZero).1.1.base.createdAt = 0 :=
  ⟨rfl, rfl, rfl⟩

/-- C2 amended: documents returned by InsertOne and InsertMany always carry a
non-zero identifier and non-zero CreatedAt and UpdatedAt (granted a generator
that never yields the zero id and a clock that never reads the zero time);
ReplaceOne instead only refreshes UpdatedAt — the identifier and CreatedAt
come back exactly as the caller provided them. -/
theorem insert_stamps_replace_refreshes_updatedAt {α : Type} (r : Repository α)
    (env : Env) (s : EffState)
    (hgen : ∀ n, env.oidGen n ≠ 0) (hclk : ∀ n, env.clock n ≠ 0) :
    (∀ d : Doc α,
      (r.InsertOne env s d).1.1.base.mongoID ≠ 0 ∧
      (r.InsertOne env s d).1.1.base.createdAt ≠ 0 ∧
      (r.InsertOne env s d).1.1.base.updatedAt ≠ 0) ∧
    (∀ ds out : List (Doc α), (r.InsertMany env s ds).1 = .ok out →
      ∀ d ∈ out, d.base.mongoID ≠ 0 ∧ d.base.createdAt ≠ 0 ∧ d.base.updatedAt ≠ 0) ∧
    (∀ (f : BsonM) (d : Doc α),
      (r.ReplaceOne env s f d).1.1.base.updatedAt = env.clock s.tick ∧
      (r.ReplaceOne env s f d).1.1.base.mongoID = d.base.mongoID ∧
      (r.ReplaceOne env s f d).1.1.base.createdAt = d.base.createdAt) := by
  refine ⟨?_, ?_, ?_⟩
  · intro d
    rw [insertOne_result_doc]
    refine ⟨?_, ?_, ?_⟩
    · rw [stampDoc_mongoID]
      by_cases h : d.base.mongoID = 0
      · simpa [h] using hgen s.oidPos
      · simp [h]
    · rw [(stampDoc_timestamps env s d).1]; exact hclk s.tick
    · rw [(stampDoc_timestamps env s d).2]; exact hclk (s.tick + 1)
  · intro ds out hok d hd
    by_cases hne : ds = []
    · subst hne
      rw [show (r.InsertMany env s ([] : List (Doc α))).1
            = (.ok [] : Except GoErr (List (Doc α))) from rfl] at hok
      simp only [Except.ok.injEq] at hok
      subst hok
      exact absurd hd (by simp)
    · have hout := insertMany_ok_out r env s ds out hne hok
      subst hout
      exact ⟨stampAll_mem_id env hgen ds s d hd, stampAll_mem_times env hclk ds s d hd⟩
  · intro f d
    rw [replaceOne_result_doc]
    exact ⟨rfl, rfl, rfl⟩

/-- C2 witness: the amended invariant evaluated on a concrete zero-identifier
document. -/
theorem insert_stamps_replace_refreshes_updatedAt_witness :
    (repoOk.InsertOne envW effs0 dZero).1.1.base.mongoID ≠ 0 ∧
    (repoOk.ReplaceOne envW effs0 fW dZero).1.1.base.createdAt = dZero.base.createdAt := by
  have h := insert_stamps_replace_refreshes_updatedAt repoOk envW effs0
    (fun n => Nat.succ_ne_zero n) (fun n => Nat.succ_ne_zero n)
  exact ⟨(h.1 dZero).1, (h.2.2 fW dZero).2.2⟩

/-- C3 counterexample: a store failure surfaced by UpdateMany is the driver
error unchanged, not an error wrapped with operation-name context. -/
theorem updateMany_error_not_wrapped_counterexample :
    (repoErr.UpdateMany fW dataW).1 = some (.storeErr "boom") ∧
    (repoErr.UpdateMany fW dataW).1.map GoErr.isOpWrapped = some false :=
  ⟨rfl, rfl⟩

/-- C3 amended: every failure reported by the store is surfaced to the
caller; UpdateOne wraps it with operation-name context, while UpdateMany —
like the insert, replace and delete operations — propagates it unchanged. -/
theorem error_propagation_policy {α : Type} (r : Repository α)
    (filter data : BsonM) (e : GoErr) :
    (r.db.updateOne filter (setCurrentDateWrap data) = .error e →
      (r.UpdateOne filter data).1 = .error (.opWrapped "mongodb.Repository.UpdateOne" e)) ∧
    (r.db.updateMany filter (setCurrentDateWrap data) = .error e →
      (r.UpdateMany filter data).1 = some e) ∧
    (∀ (env : Env) (s : EffState) (d : Doc α),
      r.db.insertOne (stampDoc env s d).1 = .error e →
        (r.InsertOne env s d).1.2 = some e) ∧
    (∀ (env : Env) (s : EffState) (d : Doc α),
      r.db.replaceOne filter (d.setUpdatedAt (env.clock s.tick)) = .error e →
        (r.ReplaceOne env s filter d).1.2 = some e) ∧
    (filter ≠ [] → r.db.deleteOne filter = .error e →
      (r.DeleteOne filter).1 = .error e) ∧
    (filter ≠ [] → r.db.deleteMany filter = .error e →
      (r.DeleteMany filter).1 = .error e) := by
  refine ⟨?_, ?_, ?_, ?_, ?_, ?_⟩
  · intro h
    simp only [setCurrentDateWrap] at h
    unfold Repository.UpdateOne
    dsimp only
    rw [h]
  · intro h
    simp only [setCurrentDateWrap] at h
    unfold Repository.UpdateMany
    dsimp only
    rw [h]
  · intro env s d h
    rw [insertOne_eq, h]
  · intro env s d h
    unfold Repository.ReplaceOne
    dsimp only [timeNow]
    rw [h]
  · intro hne h
    have hlen : ¬ filter.length = 0 := by
      simpa [List.length_eq_zero] using hne
    unfold Repository.DeleteOne
    rw [if_neg hlen, h]
  · intro hne h
    have hlen : ¬ filter.length = 0 := by
      simpa [List.length_eq_zero] using hne
    unfold Repository.DeleteMany
    rw [if_neg hlen, h]

/-- C3 witness: the propagation policy evaluated on the all-failing store. -/
theorem error_propagation_policy_witness :
    (repoErr.UpdateOne fW dataW).1 =
      .error (.opWrapped "mongodb.Repository.UpdateOne" (.storeErr "boom")) ∧
    (repoErr.UpdateMany fW dataW).1 = some (.storeErr "boom") ∧
    (repoErr.DeleteOne fW).1 = .error (.storeErr "boom") :=
  ⟨(error_propagation_policy repoErr fW dataW (.storeErr "boom")).1 rfl,
   (error_propagation_policy repoErr fW dataW (.storeErr "boom")).2.1 rfl,
   (error_propagation_policy repoErr fW dataW (.storeErr "boom")).2.2.2.2.1
     (by simp [fW]) rfl⟩

/-- C4: a successful InsertOne on a zero-identifier document yields a
non-zero identifier and CreatedAt and UpdatedAt taken from two consecutive
clock readings, hence equal within the clock resolution bound. -/
theorem insertOne_fresh_id_close_timestamps {α : Type} (r : Repository α)
    (env : Env) (s : EffState) (d : Doc α) (resol : Nat)
    (h0 : d.base.mongoID = 0)
    (hgen : env.oidGen s.oidPos ≠ 0)
    (hres : ∀ n, env.clock n ≤ env.clock (n + 1) ∧ env.clock (n + 1) ≤ env.clock n + resol)
    (_hok : (r.InsertOne env s d).1.2 = none) :
    (r.InsertOne env s d).1.1.base.mongoID ≠ 0 ∧
    (r.InsertOne env s d).1.1.base.createdAt ≤ (r.InsertOne env s d).1.1.base.updatedAt ∧
    (r.InsertOne env s d).1.1.base.updatedAt ≤ (r.InsertOne env s d).1.1.base.createdAt + resol := by
  rw [insertOne_result_doc, stampDoc_zero env s d h0]
  exact ⟨hgen, (hres s.tick).1, (hres s.tick).2⟩

/-- C4 witness: the property evaluated on a concrete zero-identifier document
with a strictly increasing unit-step clock (resolution bound 1). -/
theorem insertOne_fresh_id_close_timestamps_witness :
    (repoOk.InsertOne envW effs0 dZero).1.1.base.mongoID ≠ 0 ∧
    (repoOk.InsertOne envW effs0 dZero).1.1.base.createdAt ≤
      (repoOk.InsertOne envW effs0 dZero).1.1.base.updatedAt ∧
    (repoOk.InsertOne envW effs0 dZero).1.1.base.updatedAt ≤
      (repoOk.InsertOne envW effs0 dZero).1.1.base.createdAt + 1 :=
  insertOne_fresh_id_close_timestamps repoOk envW effs0 dZero 1 rfl
    (Nat.succ_ne_zero 0) (fun n => ⟨Nat.le_succ (n + 1), Nat.le_refl (n + 2)⟩) rfl

/-- C5: a successful InsertMany on a non-empty batch of zero-identifier
documents returns a batch of the same length whose i-th element carries the
i-th input's payload (same order) and a non-zero identifier. -/
theorem insertMany_same_length_order_nonzero_ids {α : Type} (r : Repository α)
    (env : Env) (s : EffState) (ds out : List (Doc α))
    (hne : ds ≠ [])
    (_hzero : ∀ d ∈ ds, d.base.mongoID = 0)
    (hgen : ∀ n, env.oidGen n ≠ 0)
    (hok : (r.InsertMany env s ds).1 = .ok out) :
    out.length = ds.length ∧
    ∀ i (hi : i < out.length) (hj : i < ds.length),
      (out.get ⟨i, hi⟩).base.mongoID ≠ 0 ∧
      (out.get ⟨i, hi⟩).payload = (ds.get ⟨i, hj⟩).payload := by
  have hout := insertMany_ok_out r env s ds out hne hok
  subst hout
  refine ⟨stampAll_length env ds s, ?_⟩
  intro i hi hj
  refine ⟨?_, stampAll_get_payload env ds s i hi hj⟩
  exact stampAll_mem_id env hgen ds s _ (List.get_mem _ i hi)

/-- C5 witness: the property evaluated on the singleton batch containing the
zero-identifier document. -/
theorem insertMany_same_length_order_nonzero_ids_witness :
    outW.length = [dZero].length ∧
    (outW.get ⟨0, Nat.one_pos⟩).base.mongoID ≠ 0 := by
  have h := insertMany_same_length_order_nonzero_ids repoOk envW effs0 [dZero] outW
    (by simp) (by simp [dZero]) (fun n => Nat.succ_ne_zero n) rfl
  exact ⟨h.1, (h.2 0 Nat.one_pos Nat.one_pos).1⟩

/-- C10: when the store's insert fails, InsertOne returns the document
together with the error, and the returned document is the lifecycle-stamped
one — identifier, CreatedAt and UpdatedAt already overwritten by the
stamping, not restored to their pre-call values. -/
theorem insertOne_error_returns_stamped_doc {α : Type} (r : Repository α)
    (env : Env) (s : EffState) (d : Doc α) (e : GoErr)
    (herr : r.db.insertOne (stampDoc env s d).1 = .error e) :
    (r.InsertOne env s d).1 = ((stampDoc env s d).1, some e) ∧
    (stampDoc env s d).1.base.createdAt = env.clock s.tick ∧
    (stampDoc env s d).1.base.updatedAt = env.clock (s.tick + 1) ∧
    (stampDoc env s d).1.base.mongoID =
      (if d.base.mongoID = 0 then env.oidGen s.oidPos else d.base.mongoID) := by
  refine ⟨?_, (stampDoc_timestamps env s d).1, (stampDoc_timestamps env s d).2,
    stampDoc_mongoID env s d⟩
  rw [insertOne_eq, herr]

/-- C10 witness: the failing insert evaluated on the all-failing store and the
zero-valued document. -/
theorem insertOne_error_returns_stamped_doc_witness :
    (repoErr.InsertOne envW effs0 dZero).1 =
      ((stampDoc envW effs0 dZero).1, some (.storeErr "boom")) ∧
    (stampDoc envW effs0 dZero).1.base.createdAt = envW.clock effs0.tick ∧
    (stampDoc envW effs0 dZero).1.base.updatedAt = envW.clock (effs0.tick + 1) ∧
    (stampDoc envW effs0 dZero).1.base.mongoID =
      (if dZero.base.mongoID = 0 then envW.oidGen effs0.oidPos else dZero.base.mongoID) :=
  insertOne_error_returns_stamped_doc repoErr envW effs0 dZero (.storeErr "boom") rfl

end GoMongoHelper
